import Mathlib

/-!
Shallow embedding of `homework.py` (illager10/homework_bot): a Telegram bot
polling the Yandex Practicum homework-status API.  Python values are modelled
by `PyVal`, Python exceptions by `ExcType`, and each fallible function by a
Lean function into `Except ExcType _`.  Network and wall-clock effects of one
poll cycle are supplied by a `CycleEnv` environment.
-/

/-- Model of the Python values that flow through the program: `None`,
booleans, integers, strings, lists and string-keyed dicts (JSON-decoded
payloads only ever have string keys here). -/
inductive PyVal where
  | none
  | bool (b : Bool)
  | int (n : Int)
  | str (s : String)
  | list (xs : List PyVal)
  | dict (kvs : List (String × PyVal))

/-- Python exception classes raised (or caught) by the program.
`emptyAPIResponseError` is the single class the separate `exceptions` module
contributes (`exceptions.EmptyAPIResponseError`, the only name imported from
it); `requestException` stands for any `requests` transport failure,
`jsonDecodeError` for `response.json()` failing, `telegramError` for a
`bot.send_message` failure. -/
inductive ExcType where
  | typeError
  | keyError
  | valueError
  | indexError
  | attributeError
  | emptyAPIResponseError
  | requestException
  | jsonDecodeError
  | telegramError
deriving DecidableEq, Repr

/-- Python truthiness (`bool(v)`): `None`, `False`, `0`, `""`, `[]`, `{}` are
falsy, everything else truthy. -/
def pyTruthy : PyVal → Bool
  | .none => false
  | .bool b => b
  | .int n => n != 0
  | .str s => !s.isEmpty
  | .list xs => !xs.isEmpty
  | .dict kvs => !kvs.isEmpty

/-- `isinstance(v, dict)`. -/
def isDict : PyVal → Bool
  | .dict _ => true
  | _ => false

/-- `isinstance(v, list)`. -/
def isList : PyVal → Bool
  | .list _ => true
  | _ => false

/-- `k in v` for a dict `v` (key membership); `False`-ish for non-dicts
(only ever used after an `isinstance(v, dict)` check, as in the source). -/
def pyContains (v : PyVal) (k : String) : Bool :=
  match v with
  | .dict kvs => (kvs.lookup k).isSome
  | _ => false

/-- Total version of `v.get(k)`: the value stored under `k` in a dict
(`None` when absent), `None` on non-dicts.  Used in statements; the
executable embedding uses `pyGetE`, which also models the `AttributeError`
a non-dict would raise. -/
def pyGetD (v : PyVal) (k : String) : PyVal :=
  match v with
  | .dict kvs => (kvs.lookup k).getD .none
  | _ => .none

/-- `v.get(k)` as the program executes it: dict lookup with `None` default;
calling `.get` on a non-dict raises `AttributeError`. -/
def pyGetE (v : PyVal) (k : String) : Except ExcType PyVal :=
  match v with
  | .dict kvs => .ok ((kvs.lookup k).getD .none)
  | _ => .error .attributeError

/-- `v[0]`: first element of a list; `IndexError` on an empty list,
`TypeError` when `v` is not subscriptable this way. -/
def pyIndexZero (v : PyVal) : Except ExcType PyVal :=
  match v with
  | .list (x :: _) => .ok x
  | .list [] => .error .indexError
  | _ => .error .typeError

/-- An apostrophe (for Python `repr` of strings). -/
def apos : String := String.singleton (Char.ofNat 39)

mutual
/-- Python `repr` of a `PyVal` (string escapes inside `repr` of a string are
not modelled; no claim depends on them). -/
def pyRepr : PyVal → String
  | .none => "None"
  | .bool true => "True"
  | .bool false => "False"
  | .int n => toString n
  | .str s => apos ++ s ++ apos
  | .list xs => "[" ++ pyReprItems xs ++ "]"
  | .dict kvs => "\x7b" ++ pyReprPairs kvs ++ "\x7d"

/-- Comma-separated `repr`s of list items. -/
def pyReprItems : List PyVal → String
  | [] => ""
  | [x] => pyRepr x
  | x :: y :: xs => pyRepr x ++ ", " ++ pyReprItems (y :: xs)

/-- Comma-separated `repr`s of dict entries. -/
def pyReprPairs : List (String × PyVal) → String
  | [] => ""
  | [(k, v)] => apos ++ k ++ apos ++ ": " ++ pyRepr v
  | (k, v) :: kv :: kvs =>
      apos ++ k ++ apos ++ ": " ++ pyRepr v ++ ", " ++ pyReprPairs (kv :: kvs)
end

/-- Python `str(v)`, as applied by an f-string: identity on strings, `repr`
otherwise. -/
def pyStr : PyVal → String
  | .str s => s
  | v => pyRepr v

/-- `RETRY_TIME = 600` (homework.py line 31). -/
def RETRY_TIME : Nat := 600

/-- `HOMEWORK_STATUSES` (homework.py lines 36-40): the status catalog. -/
def HOMEWORK_STATUSES : List (String × String) :=
  [("approved", "Работа проверена: ревьюеру всё понравилось. Ура!"),
   ("reviewing", "Работа взята на проверку ревьюером."),
   ("rejected", "Работа проверена: у ревьюера есть замечания.")]

/-- `homework_status not in HOMEWORK_STATUSES` / `HOMEWORK_STATUSES[...]`:
the membership test hashes its operand, so an unhashable value (a list or a
dict) raises `TypeError: unhashable type`; a hashable value yields the
catalog verdict when it is a string key and `Option.none` otherwise
(hashable non-string values — `None`, booleans, integers — are simply not
among the string keys). -/
def statusVerdict : PyVal → Except ExcType (Option String)
  | .list _ => .error .typeError
  | .dict _ => .error .typeError
  | .str s => .ok (HOMEWORK_STATUSES.lookup s)
  | _ => .ok Option.none

/-- `check_response` (homework.py lines 75-94): type- and key-checks the
decoded API answer and returns its `homeworks` list. -/
def check_response (response : PyVal) : Except ExcType PyVal :=
  if isDict response = false then .error .typeError
  else if pyContains response "homeworks" = false
          || pyContains response "current_date" = false then .error .keyError
  else
    let homeworks := pyGetD response "homeworks"
    if isList homeworks = false then .error .typeError
    else .ok homeworks

/-- `parse_status` (homework.py lines 97-117): renders the notification
message for one homework record. -/
def parse_status (homework : PyVal) : Except ExcType String :=
  if pyTruthy homework = false then .error .valueError
  else
    match pyGetE homework "homework_name" with
    | .error e => .error e
    | .ok homework_name =>
      if pyTruthy homework_name = false then .error .keyError
      else
        match pyGetE homework "status" with
        | .error e => .error e
        | .ok homework_status =>
          match statusVerdict homework_status with
          | .error e => .error e
          | .ok Option.none => .error .keyError
          | .ok (Option.some verdict) =>
              .ok ("Изменился статус проверки работы \"" ++ pyStr homework_name
                    ++ "\". " ++ verdict)

/-- Outcome of the `requests.get` call in one cycle: either an HTTP response
(status code plus the JSON decoding of its body, `Option.none` when the body
is not valid JSON) or a transport failure (timeout, DNS, connection refused —
`requests.get` itself raises). -/
inductive HttpResult where
  | response (status : Nat) (body : Option PyVal)
  | transportFailure

/-- External effects of one poll cycle: the wall clock (`int(time.time())`),
the network outcome, and whether `bot.send_message` raises this cycle. -/
structure CycleEnv where
  now : Int
  http : HttpResult
  sendFails : Bool

/-- `current_timestamp or int(time.time())` (homework.py line 58): the
`from_date` value actually sent. -/
def request_from_date (current_timestamp : PyVal) (now : Int) : PyVal :=
  if pyTruthy current_timestamp then current_timestamp else .int now

/-- The query parameters of the GET request (homework.py line 59). -/
def request_params (current_timestamp : PyVal) (now : Int) : List (String × PyVal) :=
  [("from_date", request_from_date current_timestamp now)]

/-- Body of the `try` in `get_api_answer` (homework.py lines 60-68):
`requests.get`, then on HTTP 200 `response.json()`, else log and
`raise exceptions.EmptyAPIResponseError`. -/
def get_api_answer_try (h : HttpResult) : Except ExcType PyVal :=
  match h with
  | .transportFailure => .error .requestException
  | .response status body =>
    if status = 200 then
      match body with
      | Option.some v => .ok v
      | Option.none => .error .jsonDecodeError
    else .error .emptyAPIResponseError

/-- `get_api_answer` (homework.py lines 52-72): the whole `try` is wrapped in
`except Exception: ... raise exceptions.EmptyAPIResponseError`, so every
failure surfaces as `EmptyAPIResponseError`.  The timestamp argument only
feeds `request_params`; the environment supplies the network outcome. -/
def get_api_answer (current_timestamp : PyVal) (env : CycleEnv) : Except ExcType PyVal :=
  let _params := request_params current_timestamp env.now
  match get_api_answer_try env.http with
  | .ok v => .ok v
  | .error _ => .error .emptyAPIResponseError

/-- The `bot.send_message(TELEGRAM_CHAT_ID, message)` call: may raise. -/
def bot_send (sendFails : Bool) : Except ExcType Unit :=
  if sendFails then .error .telegramError else .ok ()

/-- `send_message` (homework.py lines 43-49): wraps `bot.send_message` in
`try/except Exception`, logging either way — it never raises. -/
def send_message (sendFails : Bool) : Except ExcType Unit :=
  match bot_send sendFails with
  | .ok _ => .ok ()
  | .error _ => .ok ()

/-- `check_tokens` (homework.py lines 120-122):
`all((PRACTICUM_TOKEN, TELEGRAM_TOKEN, TELEGRAM_CHAT_ID))` where each token is
`os.getenv(...)`, i.e. `None` when unset; `all` tests truthiness, and an empty
string is falsy. -/
def check_tokens (practicum_token telegram_token telegram_chat_id : Option String) : Bool :=
  (match practicum_token with | Option.none => false | Option.some s => !s.isEmpty)
  && (match telegram_token with | Option.none => false | Option.some s => !s.isEmpty)
  && (match telegram_chat_id with | Option.none => false | Option.some s => !s.isEmpty)

/-- The `if homeworks:` block of the loop body (homework.py lines 142-146):
when the validated list is truthy (non-empty), format its first entry with
`parse_status` and send the message; otherwise only a debug log happens. -/
def cycleNotify (homeworks : PyVal) (sendFails : Bool) : Except ExcType Unit :=
  if pyTruthy homeworks then
    match pyIndexZero homeworks with
    | .error e => .error e
    | .ok hw =>
      match parse_status hw with
      | .error e => .error e
      | .ok _message => send_message sendFails
  else .ok ()

/-- Body of the `try` in the `while True` loop (homework.py lines 140-148):
fetch, validate, format-and-send the first homework when the list is
non-empty, then read `response.get('current_date')` — the value assigned to
`current_timestamp` on success. -/
def cycleTry (current_timestamp : PyVal) (env : CycleEnv) : Except ExcType PyVal :=
  match get_api_answer current_timestamp env with
  | .error e => .error e
  | .ok response =>
    match check_response response with
    | .error e => .error e
    | .ok homeworks =>
      match cycleNotify homeworks env.sendFails with
      | .error e => .error e
      | .ok _ => pyGetE response "current_date"

/-- One iteration of the `while True` loop (homework.py lines 138-155):
`try` the cycle body; `except Exception` sends a failure message (best
effort) and leaves `current_timestamp` unchanged; `finally` sleeps
`RETRY_TIME` seconds.  The result is the new `current_timestamp` paired with
the seconds slept; an `Except.error` would be an exception escaping the
loop. -/
def mainCycle (current_timestamp : PyVal) (env : CycleEnv) : Except ExcType (PyVal × Nat) :=
  match (match cycleTry current_timestamp env with
         | .ok newTs => Except.ok newTs
         | .error _e =>
           match send_message env.sendFails with
           | .ok _ => Except.ok current_timestamp
           | .error e2 => Except.error e2) with
  | .ok newTs => .ok (newTs, RETRY_TIME)
  | .error e => .error e

/-- The evolution of `current_timestamp` across one cycle (the pure
state-transition view of `mainCycle`). -/
def mainStep (current_timestamp : PyVal) (env : CycleEnv) : PyVal :=
  match cycleTry current_timestamp env with
  | .ok newTs => newTs
  | .error _ => current_timestamp

/-- `current_timestamp` after a finite prefix of the infinite loop. -/
def runCycles (current_timestamp : PyVal) (envs : List CycleEnv) : PyVal :=
  envs.foldl mainStep current_timestamp

/-- A finite prefix of the loop with exception propagation made explicit:
an `Except.error` is an exception escaping the loop. -/
def runCyclesE (current_timestamp : PyVal) : List CycleEnv → Except ExcType PyVal
  | [] => .ok current_timestamp
  | env :: rest =>
    match mainCycle current_timestamp env with
    | .error e => .error e
    | .ok (ts2, _slept) => runCyclesE ts2 rest

/-- How `main` can terminate: `sys.exit` from the startup configuration
check, or an exception escaping the loop. -/
inductive ProgExit where
  | configExit (msg : String)
  | uncaught (e : ExcType)

/-- `main` (homework.py lines 125-155) over a finite prefix of cycles:
`check_tokens` gate with `sys.exit`, then the polling loop starting from the
wall-clock timestamp. -/
def main_program (practicum_token telegram_token telegram_chat_id : Option String)
    (start_time : Int) (envs : List CycleEnv) : Except ProgExit PyVal :=
  if check_tokens practicum_token telegram_token telegram_chat_id = false then
    .error (.configExit "Нет доступа к переменным окружения или их значения отсутствуют")
  else
    match runCyclesE (.int start_time) envs with
    | .error e => .error (.uncaught e)
    | .ok ts => .ok ts

/-- Claim C4: `check_response` fails with `TypeError` iff the value is not a
dict or (a dict with both keys) its `homeworks` is not a list, and with
`KeyError` iff it is a dict missing `homeworks` or `current_date`; the
not-a-dict check precedes the key check, which precedes the list check. -/
theorem claim_C4_check_response_error_taxonomy (r : PyVal) :
    (check_response r = Except.error ExcType.typeError ↔
      (isDict r = false ∨
        (isDict r = true ∧ pyContains r "homeworks" = true
          ∧ pyContains r "current_date" = true
          ∧ isList (pyGetD r "homeworks") = false)))
    ∧ (check_response r = Except.error ExcType.keyError ↔
      (isDict r = true ∧
        (pyContains r "homeworks" = false ∨ pyContains r "current_date" = false))) := by
  simp only [check_response]
  split_ifs with h1 h2 h3 <;> simp_all
  intro hh hc
  rcases h2 with h | h <;> simp_all

/-- Claim C3 counterexample: on the well-formed response
`{"homeworks": [], "current_date": 1000}` the validator does NOT return the
value it was given — it returns the `homeworks` list, not the full mapping. -/
theorem claim_C3_counterexample :
    check_response (PyVal.dict [("homeworks", PyVal.list []), ("current_date", PyVal.int 1000)])
      ≠ Except.ok (PyVal.dict [("homeworks", PyVal.list []), ("current_date", PyVal.int 1000)]) := by
  intro h
  rw [show check_response
        (PyVal.dict [("homeworks", PyVal.list []), ("current_date", PyVal.int 1000)])
        = Except.ok (PyVal.list []) from rfl] at h
  injection h with h1
  injection h1

/-- Claim C3, amended: for every well-formed input (a dict containing both
`homeworks` and `current_date`, with `homeworks` a list), `check_response`
succeeds and returns the `homeworks` list of the response unchanged — the
very value stored under `homeworks`, with no coercion (it does not return
the whole response). -/
theorem claim_C3_returns_homeworks_unchanged (r hws : PyVal)
    (hd : isDict r = true)
    (hh : pyContains r "homeworks" = true)
    (hc : pyContains r "current_date" = true)
    (hget : pyGetD r "homeworks" = hws)
    (hl : isList hws = true) :
    check_response r = Except.ok hws := by
  simp only [check_response]
  rw [hd, hh, hc, hget]
  simp [hl]

/-- Witness for C3's amended theorem at
`{"homeworks": [], "current_date": 1000}`. -/
theorem claim_C3_witness :
    check_response (PyVal.dict [("homeworks", PyVal.list []), ("current_date", PyVal.int 1000)])
      = Except.ok (PyVal.list []) :=
  claim_C3_returns_homeworks_unchanged
    (PyVal.dict [("homeworks", PyVal.list []), ("current_date", PyVal.int 1000)])
    (PyVal.list []) rfl rfl rfl rfl rfl

/-- Claim C5 counterexample: the response
`{"homeworks": [], "current_date": "not-an-integer"}` has both keys present
but `current_date` incorrectly typed, and validation nevertheless SUCCEEDS
(returns the homeworks list) instead of rejecting it. -/
theorem claim_C5_counterexample :
    check_response (PyVal.dict
        [("homeworks", PyVal.list []), ("current_date", PyVal.str "not-an-integer")])
      = Except.ok (PyVal.list []) := rfl

/-- Claim C5, amended: `check_response` never inspects the type of
`current_date` — any response that is a dict with both keys present and
`homeworks` a list is accepted, even when `current_date` is not an integer. -/
theorem claim_C5_current_date_type_unchecked (r : PyVal)
    (hd : isDict r = true)
    (hh : pyContains r "homeworks" = true)
    (hc : pyContains r "current_date" = true)
    (hl : isList (pyGetD r "homeworks") = true)
    (hni : ∀ n : Int, pyGetD r "current_date" ≠ PyVal.int n) :
    ∃ hws, check_response r = Except.ok hws := by
  refine ⟨pyGetD r "homeworks", ?_⟩
  simp only [check_response]
  rw [hd, hh, hc]
  simp [hl]

/-- Witness for C5's amended theorem at
`{"homeworks": [], "current_date": "not-an-integer"}`. -/
theorem claim_C5_witness :
    ∃ hws, check_response (PyVal.dict
        [("homeworks", PyVal.list []), ("current_date", PyVal.str "not-an-integer")])
      = Except.ok hws :=
  claim_C5_current_date_type_unchecked
    (PyVal.dict [("homeworks", PyVal.list []), ("current_date", PyVal.str "not-an-integer")])
    rfl rfl rfl rfl (fun n h => by injection h)

/-- Claim C9: validation is deterministic (equal inputs give equal outputs,
and a second application to the same response gives the same result as the
first); the input value itself is never modified — `check_response` is a
pure function of its argument in this embedding, as in the source, whose
only side effect is logging. -/
theorem claim_C9_validation_deterministic (r r' : PyVal) (h : r = r') :
    check_response r = check_response r'
    ∧ (∀ hws, check_response r = Except.ok hws → check_response r' = Except.ok hws) := by
  subst h
  exact ⟨rfl, fun hws hok => hok⟩

/-- Witness for C9 at `{"homeworks": [], "current_date": 1000}`. -/
theorem claim_C9_witness :
    check_response (PyVal.dict [("homeworks", PyVal.list []), ("current_date", PyVal.int 1000)])
      = check_response (PyVal.dict [("homeworks", PyVal.list []), ("current_date", PyVal.int 1000)]) :=
  (claim_C9_validation_deterministic
    (PyVal.dict [("homeworks", PyVal.list []), ("current_date", PyVal.int 1000)])
    (PyVal.dict [("homeworks", PyVal.list []), ("current_date", PyVal.int 1000)]) rfl).1

lemma parse_status_ok_statusVerdict (hw : PyVal) (m : String)
    (h : parse_status hw = Except.ok m) :
    ∃ verdict, statusVerdict (pyGetD hw "status") = Except.ok (Option.some verdict) := by
  cases hw with
  | dict kvs =>
    simp only [parse_status, pyGetE, pyGetD] at h ⊢
    split at h
    · exact absurd h (by simp)
    · split at h
      · exact absurd h (by simp)
      · split at h
        · exact absurd h (by simp)
        · exact absurd h (by simp)
        · next v heq => exact ⟨v, heq⟩
  | none => simp [parse_status, pyTruthy] at h
  | bool b => simp only [parse_status, pyGetE] at h; split at h <;> simp_all
  | int n => simp only [parse_status, pyGetE] at h; split at h <;> simp_all
  | str s => simp only [parse_status, pyGetE] at h; split at h <;> simp_all
  | list xs => simp only [parse_status, pyGetE] at h; split at h <;> simp_all

/-- Claim C2 counterexample: on the record
`{"homework_name": "hw1", "status": "approved"}` the message produced by
`parse_status` is the Russian template
`Изменился статус проверки работы "hw1". {verdict}`, not the claimed shape
`Changed status of review for "hw1". {verdict}`. -/
theorem claim_C2_counterexample :
    parse_status (PyVal.dict [("homework_name", PyVal.str "hw1"), ("status", PyVal.str "approved")])
      ≠ Except.ok ("Changed status of review for \"hw1\". "
          ++ "Работа проверена: ревьюеру всё понравилось. Ура!") := by
  intro h
  rw [show parse_status
        (PyVal.dict [("homework_name", PyVal.str "hw1"), ("status", PyVal.str "approved")])
        = Except.ok ("Изменился статус проверки работы \"hw1\". "
            ++ "Работа проверена: ревьюеру всё понравилось. Ура!") from rfl] at h
  injection h with h1
  exact absurd h1 (by decide)

/-- Claim C2, amended: for every homework record (a dict) whose
`homework_name` is a non-empty string and whose `status` is a key of
`HOMEWORK_STATUSES`, `parse_status` succeeds and returns the message of the
fixed shape `Изменился статус проверки работы "{name}". {verdict}`,
embedding exactly that record's name and exactly the catalog text mapped to
its status (the source template is this Russian text; the claim's English
template is its translation). -/
theorem claim_C2_format_embeds_name_and_verdict (hw : PyVal) (name st verdict : String)
    (hdict : isDict hw = true)
    (hname : pyGetD hw "homework_name" = PyVal.str name)
    (hnonempty : name ≠ "")
    (hstatus : pyGetD hw "status" = PyVal.str st)
    (hverdict : HOMEWORK_STATUSES.lookup st = Option.some verdict) :
    parse_status hw = Except.ok
      ("Изменился статус проверки работы \"" ++ name ++ "\". " ++ verdict) := by
  obtain ⟨kvs, rfl⟩ : ∃ kvs, hw = PyVal.dict kvs := by
    cases hw <;> simp_all [isDict]
  simp only [pyGetD] at hname hstatus
  have hlookn : kvs.lookup "homework_name" = Option.some (PyVal.str name) := by
    cases hl : kvs.lookup "homework_name" with
    | none => rw [hl] at hname; simp at hname
    | some v => rw [hl] at hname; simp at hname; rw [hname]
  have hlooks : kvs.lookup "status" = Option.some (PyVal.str st) := by
    cases hl : kvs.lookup "status" with
    | none => rw [hl] at hstatus; simp at hstatus
    | some v => rw [hl] at hstatus; simp at hstatus; rw [hstatus]
  have hne : kvs.isEmpty = false := by
    cases kvs with
    | nil => simp at hlookn
    | cons kv t => rfl
  have hnm : name.isEmpty = false := by
    cases he : name.isEmpty with
    | false => rfl
    | true => exact absurd ((String.isEmpty_iff name).mp he) hnonempty
  simp [parse_status, pyTruthy, pyGetE, hne, hlookn, hlooks, hnm, statusVerdict,
        hverdict, pyStr]

/-- Witness for C2's amended theorem on
`{"homework_name": "hw1", "status": "approved"}`. -/
theorem claim_C2_witness :
    parse_status (PyVal.dict [("homework_name", PyVal.str "hw1"), ("status", PyVal.str "approved")])
      = Except.ok ("Изменился статус проверки работы \"" ++ "hw1" ++ "\". "
          ++ "Работа проверена: ревьюеру всё понравилось. Ура!") :=
  claim_C2_format_embeds_name_and_verdict
    (PyVal.dict [("homework_name", PyVal.str "hw1"), ("status", PyVal.str "approved")])
    "hw1" "approved" "Работа проверена: ревьюеру всё понравилось. Ура!"
    rfl rfl (by decide) rfl rfl

/-- Claim C7 counterexample: on the record
`{"homework_name": "x", "status": [1]}` — a non-empty record with a
non-catalog status — formatting fails with `TypeError`
(`unhashable type`, raised by `homework_status not in HOMEWORK_STATUSES`),
not with the `KeyError` the claim asserts for every non-catalog status. -/
theorem claim_C7_counterexample :
    parse_status (PyVal.dict [("homework_name", PyVal.str "x"), ("status", PyVal.list [PyVal.int 1])])
      = Except.error ExcType.typeError
    ∧ ExcType.typeError ≠ ExcType.keyError :=
  ⟨rfl, by decide⟩

/-- Claim C7, amended: `parse_status` fails with `ValueError` on every
empty/absent (falsy) record; on a non-empty dict record it fails with
`KeyError` when `homework_name` is absent or empty (falsy); when the name is
present and non-empty it fails with `KeyError` when `status` is absent or a
hashable value that is not a key of the catalog, but with `TypeError`
(unhashable type, from the `not in` membership test) when `status` is a list
or a dict — so for any status outside {approved, reviewing, rejected}
formatting still fails regardless of the name, though not always with
`KeyError`. -/
theorem claim_C7_parse_status_failures (hw : PyVal) :
    (pyTruthy hw = false → parse_status hw = Except.error ExcType.valueError)
    ∧ (∀ kvs, hw = PyVal.dict kvs → pyTruthy hw = true →
        pyTruthy (pyGetD hw "homework_name") = false →
        parse_status hw = Except.error ExcType.keyError)
    ∧ (∀ kvs, hw = PyVal.dict kvs →
        pyTruthy (pyGetD hw "homework_name") = true →
        statusVerdict (pyGetD hw "status") = Except.ok Option.none →
        parse_status hw = Except.error ExcType.keyError)
    ∧ (∀ kvs, hw = PyVal.dict kvs →
        pyTruthy (pyGetD hw "homework_name") = true →
        ((∃ xs, pyGetD hw "status" = PyVal.list xs)
          ∨ (∃ pairs, pyGetD hw "status" = PyVal.dict pairs)) →
        parse_status hw = Except.error ExcType.typeError)
    ∧ ((∀ verdict, statusVerdict (pyGetD hw "status") ≠ Except.ok (Option.some verdict)) →
        ∀ m, parse_status hw ≠ Except.ok m) := by
  refine ⟨?_, ?_, ?_, ?_, ?_⟩
  · intro h
    simp [parse_status, h]
  · rintro kvs rfl htr hnm
    simp only [pyGetD] at hnm
    simp [parse_status, htr, pyGetE, hnm]
  · rintro kvs rfl hnm hsv
    simp only [pyGetD] at hnm hsv
    have hne : kvs.isEmpty = false := by
      cases hl : kvs.lookup "homework_name" with
      | none => rw [hl] at hnm; simp [pyTruthy] at hnm
      | some v =>
        cases kvs with
        | nil => simp at hl
        | cons kv t => rfl
    simp [parse_status, pyTruthy, hne, pyGetE, hnm, hsv]
  · rintro kvs rfl hnm hsh
    simp only [pyGetD] at hnm hsh
    have hne : kvs.isEmpty = false := by
      cases hl : kvs.lookup "homework_name" with
      | none => rw [hl] at hnm; simp [pyTruthy] at hnm
      | some v =>
        cases kvs with
        | nil => simp at hl
        | cons kv t => rfl
    rcases hsh with ⟨xs, hx⟩ | ⟨pairs, hx⟩ <;>
      simp [parse_status, pyTruthy, hne, pyGetE, hnm, hx, statusVerdict] <;>
      exact hnm
  · intro hsv m hok
    obtain ⟨v, hv⟩ := parse_status_ok_statusVerdict hw m hok
    exact hsv v hv

/-- Witness for C7 on the empty record `{}` (falsy) — `ValueError`. -/
theorem claim_C7_witness :
    parse_status (PyVal.dict []) = Except.error ExcType.valueError :=
  (claim_C7_parse_status_failures (PyVal.dict [])).1 rfl

/-- Claim C6 counterexample: the invalid-JSON-on-200 failure and the
non-200-status failure are NOT distinct failure kinds — both surface as the
same `exceptions.EmptyAPIResponseError` (the code defines no
`MalformedResponseError` / `ApiUnavailableError` distinction). -/
theorem claim_C6_counterexample :
    get_api_answer (PyVal.int 1) ⟨0, HttpResult.response 200 Option.none, false⟩
      = Except.error ExcType.emptyAPIResponseError
    ∧ get_api_answer (PyVal.int 1) ⟨0, HttpResult.response 500 (Option.some (PyVal.dict [])), false⟩
      = Except.error ExcType.emptyAPIResponseError
    ∧ get_api_answer (PyVal.int 1) ⟨0, HttpResult.response 200 Option.none, false⟩
      = get_api_answer (PyVal.int 1) ⟨0, HttpResult.response 500 (Option.some (PyVal.dict [])), false⟩ :=
  ⟨rfl, rfl, rfl⟩

/-- Claim C6, amended: `get_api_answer` fails when the HTTP status is 200
but the body is not valid JSON, fails when the status is non-200, and fails
on a transport failure — but all three failures raise the one class
`exceptions.EmptyAPIResponseError` (the blanket `except Exception` re-raises
it), so the failure kinds are not distinct; on HTTP 200 with a valid-JSON
body the decoded JSON is returned. -/
theorem claim_C6_fetch_failures (ts : PyVal) (env : CycleEnv) :
    (env.http = HttpResult.response 200 Option.none →
        get_api_answer ts env = Except.error ExcType.emptyAPIResponseError)
    ∧ (∀ status body, env.http = HttpResult.response status body → status ≠ 200 →
        get_api_answer ts env = Except.error ExcType.emptyAPIResponseError)
    ∧ (env.http = HttpResult.transportFailure →
        get_api_answer ts env = Except.error ExcType.emptyAPIResponseError)
    ∧ (∀ body, env.http = HttpResult.response 200 (Option.some body) →
        get_api_answer ts env = Except.ok body) := by
  refine ⟨?_, ?_, ?_, ?_⟩
  · intro h
    simp [get_api_answer, get_api_answer_try, h]
  · intro status body h hne
    simp [get_api_answer, get_api_answer_try, h, hne]
  · intro h
    simp [get_api_answer, get_api_answer_try, h]
  · intro body h
    simp [get_api_answer, get_api_answer_try, h]

/-- Witness for C6's amended theorem: a transport failure yields
`EmptyAPIResponseError`. -/
theorem claim_C6_witness :
    get_api_answer (PyVal.int 1) ⟨0, HttpResult.transportFailure, false⟩
      = Except.error ExcType.emptyAPIResponseError :=
  (claim_C6_fetch_failures (PyVal.int 1) ⟨0, HttpResult.transportFailure, false⟩).2.2.1 rfl

lemma cycleTry_ok_inv (ts : PyVal) (env : CycleEnv) (v : PyVal)
    (h : cycleTry ts env = Except.ok v) :
    ∃ response, get_api_answer ts env = Except.ok response
      ∧ pyGetE response "current_date" = Except.ok v := by
  revert h
  unfold cycleTry
  cases hga : get_api_answer ts env with
  | error e => intro h; simp at h
  | ok response =>
    cases hcr : check_response response with
    | error e => intro h; simp [hcr] at h
    | ok homeworks =>
      cases hcn : cycleNotify homeworks env.sendFails with
      | error e => intro h; simp [hcr, hcn] at h
      | ok u =>
        intro h
        simp only [hcr, hcn] at h
        exact ⟨response, rfl, h⟩

/-- Claim C1: the loop's `current_timestamp` is advanced to the response's
`current_date` only on a fully successful cycle; a cycle failing anywhere in
fetch, validation or formatting leaves it unchanged, so the next cycle sends
the same `from_date` window (and the failed cycle drops out of any sequence
of cycles). -/
theorem claim_C1_timestamp_advance (ts : PyVal) (env : CycleEnv) :
    (∀ e, cycleTry ts env = Except.error e →
        mainStep ts env = ts
        ∧ (∀ now, request_from_date (mainStep ts env) now = request_from_date ts now)
        ∧ (∀ envs, runCycles ts (env :: envs) = runCycles ts envs))
    ∧ (∀ v, cycleTry ts env = Except.ok v →
        mainStep ts env = v
        ∧ ∃ response, get_api_answer ts env = Except.ok response
            ∧ pyGetE response "current_date" = Except.ok v) := by
  constructor
  · intro e h
    have hms : mainStep ts env = ts := by unfold mainStep; rw [h]
    refine ⟨hms, fun now => by rw [hms], fun envs => ?_⟩
    unfold runCycles
    rw [List.foldl_cons, hms]
  · intro v h
    have hms : mainStep ts env = v := by unfold mainStep; rw [h]
    exact ⟨hms, cycleTry_ok_inv ts env v h⟩

/-- Witness for C1: a transport-failure cycle leaves the timestamp at its
previous value `5`. -/
theorem claim_C1_witness :
    mainStep (PyVal.int 5) ⟨0, HttpResult.transportFailure, false⟩ = PyVal.int 5 :=
  ((claim_C1_timestamp_advance (PyVal.int 5) ⟨0, HttpResult.transportFailure, false⟩).1
    ExcType.emptyAPIResponseError rfl).1

lemma send_message_ok (b : Bool) : send_message b = Except.ok () := by
  cases b <;> rfl

lemma mainCycle_ok (ts : PyVal) (env : CycleEnv) :
    mainCycle ts env = Except.ok (mainStep ts env, RETRY_TIME) := by
  unfold mainCycle mainStep
  cases h : cycleTry ts env with
  | ok v => rfl
  | error e => rw [send_message_ok]

lemma runCyclesE_eq (envs : List CycleEnv) :
    ∀ ts, runCyclesE ts envs = Except.ok (runCycles ts envs) := by
  induction envs with
  | nil => intro ts; rfl
  | cons e rest ih =>
    intro ts
    unfold runCyclesE
    rw [mainCycle_ok]
    show runCyclesE (mainStep ts e) rest = Except.ok (runCycles ts (e :: rest))
    rw [ih]
    unfold runCycles
    rw [List.foldl_cons]

/-- Claim C8: every exception a cycle raises (fetch, validation, formatting
— and the best-effort notification) is caught at the loop boundary, the
cycle always ends by sleeping `RETRY_TIME = 600` seconds, and over any run
the process can only terminate through the startup configuration check. -/
theorem claim_C8_loop_containment (ts : PyVal) (env : CycleEnv)
    (p t c : Option String) (start : Int) (envs : List CycleEnv) :
    mainCycle ts env = Except.ok (mainStep ts env, RETRY_TIME)
    ∧ RETRY_TIME = 600
    ∧ (∀ x, main_program p t c start envs = Except.error x →
        x = ProgExit.configExit "Нет доступа к переменным окружения или их значения отсутствуют") := by
  refine ⟨mainCycle_ok ts env, rfl, ?_⟩
  intro x hx
  unfold main_program at hx
  by_cases hct : check_tokens p t c = false
  · rw [if_pos hct] at hx
    injection hx with h1
    exact h1.symm
  · rw [if_neg hct] at hx
    rw [runCyclesE_eq] at hx
    exact absurd hx (by simp)

/-- Witness for C8: with no credentials configured the program exits through
the configuration check (and a transport-failure cycle sleeps 600 s). -/
theorem claim_C8_witness :
    main_program Option.none Option.none Option.none 0 []
      = Except.error (ProgExit.configExit "Нет доступа к переменным окружения или их значения отсутствуют")
    ∧ ProgExit.configExit "Нет доступа к переменным окружения или их значения отсутствуют"
      = ProgExit.configExit "Нет доступа к переменным окружения или их значения отсутствуют" :=
  ⟨rfl, (claim_C8_loop_containment (PyVal.int 0) ⟨0, HttpResult.transportFailure, false⟩
    Option.none Option.none Option.none 0 []).2.2 _ rfl⟩

lemma isEmpty_false_iff (s : String) : s.isEmpty = false ↔ s ≠ "" := by
  constructor
  · intro h hs
    subst hs
    exact absurd h (by decide)
  · intro h
    cases he : s.isEmpty with
    | false => rfl
    | true => exact absurd ((String.isEmpty_iff s).mp he) h

/-- Claim C10: `check_tokens` is true iff all three credentials are present
and non-empty — an empty-string credential is treated exactly like an absent
one, and any empty-string credential makes `main` take the fatal startup
exit. -/
theorem claim_C10_check_tokens_empty_string (p t c : Option String) :
    (check_tokens p t c = true ↔
      ((∃ s, p = Option.some s ∧ s ≠ "") ∧ (∃ s, t = Option.some s ∧ s ≠ "")
        ∧ (∃ s, c = Option.some s ∧ s ≠ "")))
    ∧ ((p = Option.some "" ∨ t = Option.some "" ∨ c = Option.some "") →
        ∀ start envs, main_program p t c start envs
          = Except.error (ProgExit.configExit "Нет доступа к переменным окружения или их значения отсутствуют")) := by
  constructor
  · cases p <;> cases t <;> cases c <;>
      simp [check_tokens, isEmpty_false_iff, and_assoc]
  · intro h start envs
    have hct : check_tokens p t c = false := by
      rcases h with h | h | h <;> subst h
      · rfl
      · cases p with
        | none => rfl
        | some s => simp [check_tokens, show ("".isEmpty) = true from rfl]
      · cases p <;> cases t <;>
          simp [check_tokens, show ("".isEmpty) = true from rfl]
    unfold main_program
    rw [if_pos hct]

/-- Witness for C10: an empty API token with the other credentials set still
exits fatally at startup. -/
theorem claim_C10_witness :
    main_program (Option.some "") (Option.some "token") (Option.some "42") 0 []
      = Except.error (ProgExit.configExit "Нет доступа к переменным окружения или их значения отсутствуют") :=
  (claim_C10_check_tokens_empty_string (Option.some "") (Option.some "token")
    (Option.some "42")).2 (Or.inl rfl) 0 []
